import Mathlib

/-!
Shallow embedding of the Kroolo Enterprise Search Telegram bot
(`src/auth/__init__.py`, `src/backend/__init__.py`, `src/storage/__init__.py`,
`src/handlers/messages.py`, `src/server.py`) together with theorems settling
the specification claims about authorization, session state, backend outcome
classification, message dispatch and job-callback correlation.
-/

namespace Kroolo

/-! ## Authorization (`src/auth/__init__.py`, class `AuthManager`) -/

/-- State of `AuthManager`: the JWT secret, the allow-list, the admin set and
the `allow_all_users` flag (Python uses `set[int]`; we use `Finset ℤ`). -/
structure AuthManager where
  jwt_secret : String
  allowed_users : Finset ℤ
  admin_users : Finset ℤ
  allow_all_users : Bool
deriving DecidableEq

/-- `AuthManager.__init__`: loads the allow-list and admin set from settings and
computes `allow_all_users = (len(self.allowed_users) == 0)` once. -/
def AuthManager.init (secret : String) (allowed admin : Finset ℤ) : AuthManager :=
  { jwt_secret := secret
    allowed_users := allowed
    admin_users := admin
    allow_all_users := allowed.card = 0 }

/-- `AuthManager.is_user_allowed`: true when `allow_all_users`, else membership. -/
def AuthManager.is_user_allowed (m : AuthManager) (user_id : ℤ) : Bool :=
  if m.allow_all_users then true else user_id ∈ m.allowed_users

/-- `AuthManager.is_user_admin`: membership in the admin set. -/
def AuthManager.is_user_admin (m : AuthManager) (user_id : ℤ) : Bool :=
  user_id ∈ m.admin_users

/-- `AuthManager.add_user`: inserts when absent (returning `True`), else no-op
returning `False`. Result is the updated manager paired with the return value. -/
def AuthManager.add_user (m : AuthManager) (user_id : ℤ) : AuthManager × Bool :=
  if user_id ∉ m.allowed_users then
    ({ m with allowed_users := insert user_id m.allowed_users }, true)
  else
    (m, false)

/-- `AuthManager.remove_user`: removes only when present in the allow-list AND
not an admin; otherwise no-op returning `False`. -/
def AuthManager.remove_user (m : AuthManager) (user_id : ℤ) : AuthManager × Bool :=
  if user_id ∈ m.allowed_users ∧ user_id ∉ m.admin_users then
    ({ m with allowed_users := m.allowed_users.erase user_id }, true)
  else
    (m, false)

/-- A mutation of the allow-list through the admin-gated operations. -/
inductive AuthOp where
  | add (user_id : ℤ)
  | remove (user_id : ℤ)
deriving DecidableEq, Repr

/-- Run one admin-gated mutation, discarding the boolean return value. -/
def AuthManager.applyOp (m : AuthManager) : AuthOp → AuthManager
  | .add u => (m.add_user u).1
  | .remove u => (m.remove_user u).1

/-- Run a sequence of admin-gated mutations. -/
def AuthManager.applyOps (m : AuthManager) (ops : List AuthOp) : AuthManager :=
  ops.foldl AuthManager.applyOp m

lemma AuthManager.applyOp_allow_all (m : AuthManager) (op : AuthOp) :
    (m.applyOp op).allow_all_users = m.allow_all_users := by
  cases op with
  | add u =>
      simp only [AuthManager.applyOp, AuthManager.add_user]
      split <;> rfl
  | remove u =>
      simp only [AuthManager.applyOp, AuthManager.remove_user]
      split <;> rfl

lemma AuthManager.applyOps_allow_all (m : AuthManager) (ops : List AuthOp) :
    (m.applyOps ops).allow_all_users = m.allow_all_users := by
  induction ops generalizing m with
  | nil => rfl
  | cons op rest ih =>
      simp only [AuthManager.applyOps, List.foldl_cons] at *
      rw [ih (m.applyOp op), AuthManager.applyOp_allow_all]

/-- **C4.** Membership in the allow-list implies `is_user_allowed`; and when the
`allow_all_users` mode holds (as set up by `__init__` from an empty allow-list),
every user whatsoever is allowed. -/
theorem C4_is_allowed (m : AuthManager) (u : ℤ) :
    (u ∈ m.allowed_users → m.is_user_allowed u = true) ∧
    (m.allow_all_users = true → ∀ v : ℤ, m.is_user_allowed v = true) ∧
    (∀ secret : String, ∀ admin : Finset ℤ, ∀ v : ℤ,
      (AuthManager.init secret ∅ admin).is_user_allowed v = true) := by
  refine ⟨fun hu => ?_, fun hall v => ?_, fun secret admin v => ?_⟩
  · simp [AuthManager.is_user_allowed]
    exact Or.inr hu
  · simp [AuthManager.is_user_allowed, hall]
  · simp [AuthManager.is_user_allowed, AuthManager.init]

/-- Witness for C4 at a concrete manager and user. -/
theorem C4_is_allowed_witness :
    let m := AuthManager.init "s" {5} {5}
    (5 : ℤ) ∈ m.allowed_users ∧ m.is_user_allowed 5 = true := by
  refine ⟨by decide, (C4_is_allowed (AuthManager.init "s" {5} {5}) 5).1 (by decide)⟩

/-- **C5.** `remove_user` returns `False` and leaves the manager unchanged when
the user is absent from the allow-list or is an admin; otherwise it returns
`True` and erases the user. In particular an admin is never removed. -/
theorem C5_remove_user (m : AuthManager) (u : ℤ) :
    (u ∉ m.allowed_users ∨ u ∈ m.admin_users → m.remove_user u = (m, false)) ∧
    (u ∈ m.allowed_users ∧ u ∉ m.admin_users →
      m.remove_user u =
        ({ m with allowed_users := m.allowed_users.erase u }, true)) ∧
    (u ∈ m.admin_users →
      (m.remove_user u).2 = false ∧ (m.remove_user u).1.allowed_users = m.allowed_users) := by
  refine ⟨fun h => ?_, fun h => ?_, fun hadm => ?_⟩
  · unfold AuthManager.remove_user
    rw [if_neg]
    rcases h with h | h
    · exact fun hc => h hc.1
    · exact fun hc => hc.2 h
  · unfold AuthManager.remove_user
    rw [if_pos h]
  · unfold AuthManager.remove_user
    rw [if_neg (fun hc => hc.2 hadm)]
    exact ⟨rfl, rfl⟩

/-- Witness for C5: removing the admin user 7 from a concrete manager fails and
does not shrink the allow-list; removing the plain user 8 succeeds. -/
theorem C5_remove_user_witness :
    let m : AuthManager := ⟨"s", {7, 8}, {7}, false⟩
    m.remove_user 7 = (m, false) ∧
    m.remove_user 8 = ({ m with allowed_users := ({7, 8} : Finset ℤ).erase 8 }, true) := by
  refine ⟨(C5_remove_user ⟨"s", {7, 8}, {7}, false⟩ 7).1 (Or.inr (by decide)),
    (C5_remove_user ⟨"s", {7, 8}, {7}, false⟩ 8).2.1 ⟨by decide, by decide⟩⟩

/-- **C10.** The `allow_all_users` flag is fixed at construction from emptiness
of the configured allow-list and no sequence of `add_user`/`remove_user`
operations changes it: a process started with an empty allow-list keeps
allowing everyone, and one started non-empty never enters allow-all mode. -/
theorem C10_allow_all_immutable (secret : String) (allowed admin : Finset ℤ)
    (ops : List AuthOp) :
    ((AuthManager.init secret allowed admin).applyOps ops).allow_all_users =
      decide (allowed.card = 0) ∧
    (allowed = ∅ → ∀ u : ℤ,
      ((AuthManager.init secret allowed admin).applyOps ops).is_user_allowed u = true) ∧
    (allowed ≠ ∅ →
      ((AuthManager.init secret allowed admin).applyOps ops).allow_all_users = false) := by
  have hflag := AuthManager.applyOps_allow_all (AuthManager.init secret allowed admin) ops
  have hinit : (AuthManager.init secret allowed admin).allow_all_users =
      decide (allowed.card = 0) := rfl
  refine ⟨hflag.trans hinit, fun hempty u => ?_, fun hne => ?_⟩
  · have : ((AuthManager.init secret allowed admin).applyOps ops).allow_all_users = true := by
      rw [hflag, hinit, hempty]
      simp
    simp [AuthManager.is_user_allowed, this]
  · rw [hflag, hinit]
    simp [Finset.card_eq_zero, hne]

/-- Witness for C10: starting from the non-empty allow-list `{3}`, adding user 4
and then removing both 3 and 4 empties the list yet allow-all stays off. -/
theorem C10_allow_all_immutable_witness :
    ({3} : Finset ℤ) ≠ ∅ ∧
    ((AuthManager.init "s" {3} ∅).applyOps
      [AuthOp.add 4, AuthOp.remove 3, AuthOp.remove 4]).allow_all_users = false :=
  ⟨by decide,
    (C10_allow_all_immutable "s" {3} ∅ [AuthOp.add 4, AuthOp.remove 3, AuthOp.remove 4]).2.2
      (by decide)⟩

/-! ## Backend tokens (`create_backend_token` / `verify_backend_token`)

Time is modelled as seconds since the epoch (`ℤ`). The `jose` HS256
signature is modelled as a concrete keyed tag over the serialized payload:
`verify` accepts exactly the tokens whose tag equals the tag recomputed from
the secret, and whose `exp` has not passed (jose raises
`ExpiredSignatureError` when `exp < now`). -/

/-- The JWT payload built by `create_backend_token`:
`{"sub": str(user_id), "exp": expire, "iat": now, "type": "bot_user"}`. -/
structure TokenPayload where
  sub : String
  exp : ℤ
  iat : ℤ
  type : String
deriving DecidableEq, Repr

/-- Serialization of a payload used as MAC input. -/
def TokenPayload.serialize (p : TokenPayload) : String :=
  p.sub ++ "|" ++ toString p.exp ++ "|" ++ toString p.iat ++ "|" ++ p.type

/-- Model of the HS256 keyed tag: the secret concatenated with the serialized
payload (what matters for the claims is only that `verify` recomputes it and
compares for equality). -/
def hs256Tag (secret : String) (p : TokenPayload) : String :=
  "HS256:" ++ secret ++ ":" ++ p.serialize

/-- An encoded token: payload plus signature tag (`jwt.encode`). -/
structure Jwt where
  payload : TokenPayload
  sig : String
deriving DecidableEq, Repr

/-- `AuthManager.create_backend_token`: payload with subject `str(user_id)`,
expiry `now + expires_minutes minutes`, issued-at `now`, signed with the
manager's secret. -/
def AuthManager.create_backend_token (m : AuthManager) (now user_id expires_minutes : ℤ) :
    Jwt :=
  let expire := now + expires_minutes * 60
  let payload : TokenPayload := ⟨toString user_id, expire, now, "bot_user"⟩
  ⟨payload, hs256Tag m.jwt_secret payload⟩

/-- `AuthManager.verify_backend_token`: `jwt.decode` returns the payload when
the recomputed tag matches and the token is not expired (`now ≤ exp`), and the
wrapper returns `None` on any `JWTError`. -/
def AuthManager.verify_backend_token (m : AuthManager) (now : ℤ) (t : Jwt) :
    Option TokenPayload :=
  if t.sig = hs256Tag m.jwt_secret t.payload ∧ now ≤ t.payload.exp then
    some t.payload
  else
    none

/-- **C9.** Verifying a freshly issued token before its expiry yields claims
whose subject is the issuing user; a token whose signature tag was tampered
with verifies to `none`, and any token verified after its expiry time verifies
to `none` — never a partial claim. -/
theorem C9_token_roundtrip (m : AuthManager) (now u mins t1 t2 : ℤ) :
    (t1 ≤ (m.create_backend_token now u mins).payload.exp →
      ∃ p : TokenPayload,
        m.verify_backend_token t1 (m.create_backend_token now u mins) = some p ∧
        p.sub = toString u) ∧
    (∀ s : String, s ≠ hs256Tag m.jwt_secret (m.create_backend_token now u mins).payload →
      m.verify_backend_token t2 ⟨(m.create_backend_token now u mins).payload, s⟩ = none) ∧
    ((m.create_backend_token now u mins).payload.exp < t2 →
      m.verify_backend_token t2 (m.create_backend_token now u mins) = none) := by
  refine ⟨fun hfresh => ?_, fun s hs => ?_, fun hexp => ?_⟩
  · refine ⟨(m.create_backend_token now u mins).payload, ?_, rfl⟩
    unfold AuthManager.verify_backend_token
    rw [if_pos ⟨rfl, hfresh⟩]
  · unfold AuthManager.verify_backend_token
    rw [if_neg (fun hc => hs hc.1)]
  · unfold AuthManager.verify_backend_token
    rw [if_neg (fun hc => absurd hc.2 (not_le.mpr hexp))]

/-- Witness for C9 at a concrete manager, user 42 issued at time 0 for 60
minutes, verified at time 100 (fresh), tampered at time 100, and verified at
time 5000 (expired). -/
theorem C9_token_roundtrip_witness :
    let m : AuthManager := AuthManager.init "topsecret" {42} ∅
    ((100 : ℤ) ≤ (m.create_backend_token 0 42 60).payload.exp ∧
      ∃ p : TokenPayload,
        m.verify_backend_token 100 (m.create_backend_token 0 42 60) = some p ∧
        p.sub = toString (42 : ℤ)) ∧
    ("bogus" ≠ hs256Tag m.jwt_secret (m.create_backend_token 0 42 60).payload ∧
      m.verify_backend_token 100 ⟨(m.create_backend_token 0 42 60).payload, "bogus"⟩ = none) ∧
    ((m.create_backend_token 0 42 60).payload.exp < 5000 ∧
      m.verify_backend_token 5000 (m.create_backend_token 0 42 60) = none) := by
  refine ⟨⟨by decide, (C9_token_roundtrip (AuthManager.init "topsecret" {42} ∅)
      0 42 60 100 100).1 (by decide)⟩,
    ⟨by decide, (C9_token_roundtrip (AuthManager.init "topsecret" {42} ∅)
      0 42 60 100 100).2.1 "bogus" (by decide)⟩,
    ⟨by decide, (C9_token_roundtrip (AuthManager.init "topsecret" {42} ∅)
      0 42 60 100 5000).2.2 (by decide)⟩⟩

/-! ## JSON values and log events -/

/-- A JSON value, as exchanged with the backend and stored in Redis. -/
inductive JsonVal where
  | str (s : String)
  | num (n : ℤ)
  | bool (b : Bool)
  | obj (fields : List (String × JsonVal))
  | arr (items : List JsonVal)

/-- A structured log record emitted via `logger.<level>(event, detail=...)`. -/
structure LogEvent where
  level : String
  event : String
  detail : String
deriving DecidableEq, Repr

/-! ## Backend client (`src/backend/__init__.py`, `BackendClient._make_request`) -/

/-- What the HTTP transport produces for one request: a response with a status
code, a parsed JSON body and the raw text, or an `httpx.TimeoutException`, or
any other transport-level exception with its message. -/
inductive HttpResult where
  | response (status_code : ℤ) (json_body : JsonVal) (text : String)
  | timeoutExc
  | otherExc (msg : String)

/-- The value `_make_request` returns: the parsed body on 200, otherwise the
dict `{"error": msg}` (modelled by its single message string). -/
inductive BackendResponse where
  | parsed (body : JsonVal)
  | errDict (msg : String)

/-- `BackendClient._make_request`, as a function of the transport outcome:
200 returns the parsed body; 401 the auth-failure error dict; 404 the
not-found error dict; any other status the `http_error` dict retaining the
status code, with the raw response text logged; a timeout the timeout error
dict; any other exception the transport-error dict with its message. Paired
with the log records it emits. -/
def BackendClient.make_request (method endpoint : String) (user_id : ℤ)
    (hr : HttpResult) : BackendResponse × List LogEvent :=
  match hr with
  | .response status body text =>
      let requestLog : LogEvent :=
        ⟨"info", "Backend request", method ++ " " ++ endpoint ++ " status " ++
          toString status ++ " user " ++ toString user_id⟩
      if status = 200 then
        (.parsed body, [requestLog])
      else if status = 401 then
        (.errDict "Authentication failed",
          [requestLog, ⟨"warning", "Backend authentication failed", toString user_id⟩])
      else if status = 404 then
        (.errDict "Endpoint not found",
          [requestLog, ⟨"warning", "Backend endpoint not found", endpoint⟩])
      else
        (.errDict ("Request failed with status " ++ toString status),
          [requestLog, ⟨"error", "Backend request failed", text⟩])
  | .timeoutExc =>
      (.errDict "Request timeout", [⟨"error", "Backend request timeout", endpoint⟩])
  | .otherExc msg =>
      (.errDict ("Request failed: " ++ msg),
        [⟨"error", "Backend request exception", msg⟩])

/-- **C3 counterexample.** The claim says the `http_error` failure itself
carries the raw response body; but two 500 responses with different raw bodies
yield the *same* returned failure value, so the returned outcome does not
carry the body (it is only logged). -/
theorem C3_counterexample :
    (BackendClient.make_request "GET" "/api/sources" 1
        (.response 500 (JsonVal.obj []) "internal error A")).1 =
      (BackendClient.make_request "GET" "/api/sources" 1
        (.response 500 (JsonVal.obj []) "internal error B")).1 ∧
    "internal error A" ≠ "internal error B" := by
  refine ⟨rfl, by decide⟩

/-- **C3 (amended).** Status 200 yields success with the parsed body; 401 the
auth-failed error; 404 the not-found error; a timeout the timeout error; any
other non-200 status the http-error failure retaining the numeric status code,
with the raw response body recorded in the diagnostic log (not in the returned
failure value); a transport-level exception yields the transport-error failure
with its message. -/
theorem C3_outcome_classification (method endpoint : String) (user_id status : ℤ)
    (body : JsonVal) (text msg : String) :
    (status = 200 →
      (BackendClient.make_request method endpoint user_id
        (.response status body text)).1 = .parsed body) ∧
    (status = 401 →
      (BackendClient.make_request method endpoint user_id
        (.response status body text)).1 = .errDict "Authentication failed") ∧
    (status = 404 →
      (BackendClient.make_request method endpoint user_id
        (.response status body text)).1 = .errDict "Endpoint not found") ∧
    (status ≠ 200 → status ≠ 401 → status ≠ 404 →
      (BackendClient.make_request method endpoint user_id
        (.response status body text)).1 =
          .errDict ("Request failed with status " ++ toString status) ∧
      (⟨"error", "Backend request failed", text⟩ : LogEvent) ∈
        (BackendClient.make_request method endpoint user_id
          (.response status body text)).2) ∧
    (BackendClient.make_request method endpoint user_id .timeoutExc).1 =
      .errDict "Request timeout" ∧
    (BackendClient.make_request method endpoint user_id (.otherExc msg)).1 =
      .errDict ("Request failed: " ++ msg) := by
  refine ⟨fun h200 => ?_, fun h401 => ?_, fun h404 => ?_,
    fun h200 h401 h404 => ?_, rfl, rfl⟩
  · simp [BackendClient.make_request, h200]
  · simp [BackendClient.make_request, h401]
  · simp [BackendClient.make_request, h404]
  · simp [BackendClient.make_request, h200, h401, h404]

/-- Witness for C3 (amended) at concrete statuses 200, 401, 404, 503, a
timeout and a connection-refused exception. -/
theorem C3_outcome_classification_witness :
    ((BackendClient.make_request "POST" "/api/search" 9
        (.response 200 (JsonVal.obj [("answer", JsonVal.str "hi")]) "ok")).1 =
      .parsed (JsonVal.obj [("answer", JsonVal.str "hi")])) ∧
    ((BackendClient.make_request "POST" "/api/search" 9
        (.response 401 (JsonVal.obj []) "denied")).1 = .errDict "Authentication failed") ∧
    ((BackendClient.make_request "POST" "/api/search" 9
        (.response 404 (JsonVal.obj []) "missing")).1 = .errDict "Endpoint not found") ∧
    ((503 : ℤ) ≠ 200 ∧ (503 : ℤ) ≠ 401 ∧ (503 : ℤ) ≠ 404 ∧
      (BackendClient.make_request "POST" "/api/search" 9
          (.response 503 (JsonVal.obj []) "overloaded")).1 =
        .errDict ("Request failed with status " ++ toString (503 : ℤ)) ∧
      (⟨"error", "Backend request failed", "overloaded"⟩ : LogEvent) ∈
        (BackendClient.make_request "POST" "/api/search" 9
          (.response 503 (JsonVal.obj []) "overloaded")).2) := by
  have h := C3_outcome_classification "POST" "/api/search" 9 503
    (JsonVal.obj []) "overloaded" "x"
  refine ⟨(C3_outcome_classification "POST" "/api/search" 9 200
      (JsonVal.obj [("answer", JsonVal.str "hi")]) "ok" "x").1 rfl,
    (C3_outcome_classification "POST" "/api/search" 9 401
      (JsonVal.obj []) "denied" "x").2.1 rfl,
    (C3_outcome_classification "POST" "/api/search" 9 404
      (JsonVal.obj []) "missing" "x").2.2.1 rfl,
    by decide, by decide, by decide,
    (h.2.2.2.1 (by decide) (by decide) (by decide)).1,
    (h.2.2.2.1 (by decide) (by decide) (by decide)).2⟩

/-! ## Session store (`src/storage/__init__.py`)

`RedisStateStorage` stores JSON-serialized dicts under string keys with a
native TTL. We model a dict as an association list, the store as an
association list keyed by Redis key, time as seconds (`ℤ`), and a transport
failure of the underlying `redis` call by a boolean `fail` flag: the Python
`except` blocks turn any such failure into a logged event plus the absent /
unchanged result. -/

/-- A Python dict as stored in conversation state (JSON object). -/
abbrev StateMap := List (String × JsonVal)

/-- `dict.get`: first binding of the key, if any. -/
def dictGet (mp : StateMap) (k : String) : Option JsonVal :=
  (mp.find? (fun kv => kv.1 = k)).map Prod.snd

/-- `dict[k] = v`: replace the binding in place when present, else append. -/
def dictSet (mp : StateMap) (k : String) (v : JsonVal) : StateMap :=
  if (mp.find? (fun kv => kv.1 = k)).isSome then
    mp.map (fun kv => if kv.1 = k then (k, v) else kv)
  else
    mp ++ [(k, v)]

/-- `dict.update`: apply every binding of `updates` over `mp`. -/
def dictUpdate (mp updates : StateMap) : StateMap :=
  updates.foldl (fun acc kv => dictSet acc kv.1 kv.2) mp

/-- One Redis entry: the stored dict and its absolute expiry time (`none` for
keys written without TTL). -/
structure RedisEntry where
  value : StateMap
  expire_at : Option ℤ

/-- The Redis keyspace. -/
abbrev RedisStore := List (String × RedisEntry)

/-- Raw keyspace lookup, ignoring expiry. -/
def redisLookup (store : RedisStore) (key : String) : Option RedisEntry :=
  (store.find? (fun kv => kv.1 = key)).map Prod.snd

/-- Whether an entry is still live at time `now` (Redis expires a key once its
TTL has fully elapsed). -/
def RedisEntry.live (e : RedisEntry) (now : ℤ) : Bool :=
  match e.expire_at with
  | none => true
  | some t => now < t

/-- `SETEX`/`SET`: (re)write the key; `if ttl:` in the Python chooses `setex`
only for a truthy (present, nonzero) TTL, installing the full TTL from `now`. -/
def redisWrite (now : ℤ) (store : RedisStore) (key : String) (value : StateMap)
    (ttl : Option ℤ) : RedisStore :=
  let expire_at : Option ℤ :=
    match ttl with
    | some t => if t ≠ 0 then some (now + t) else none
    | none => none
  (key, ⟨value, expire_at⟩) :: store.filter (fun kv => kv.1 ≠ key)

/-- `RedisStateStorage.get`: on transport failure, log and return `None` (as
if absent); otherwise return the live value if any (JSON round-trip on an
association list is the identity). -/
def RedisStateStorage.get (fail : Bool) (now : ℤ) (store : RedisStore)
    (key : String) : Option StateMap × List LogEvent :=
  if fail then
    (none, [⟨"error", "Redis get error", key⟩])
  else
    match redisLookup store key with
    | some e => (if e.live now then some e.value else none, [])
    | none => (none, [])

/-- `RedisStateStorage.set`: on transport failure, log and drop the write;
otherwise write with the optional TTL. -/
def RedisStateStorage.set (fail : Bool) (now : ℤ) (store : RedisStore)
    (key : String) (value : StateMap) (ttl : Option ℤ) :
    RedisStore × List LogEvent :=
  if fail then
    (store, [⟨"error", "Redis set error", key⟩])
  else
    (redisWrite now store key value ttl, [])

/-- `RedisStateStorage.delete`: on transport failure, log and leave the store
unchanged; otherwise remove the key. -/
def RedisStateStorage.delete (fail : Bool) (store : RedisStore) (key : String) :
    RedisStore × List LogEvent :=
  if fail then
    (store, [⟨"error", "Redis delete error", key⟩])
  else
    (store.filter (fun kv => kv.1 ≠ key), [])

/-! ## Conversation state manager (`src/storage/__init__.py`, `ConversationState`) -/

/-- The settings the conversation state manager reads. -/
structure ConvSettings where
  session_timeout_minutes : ℤ

/-- `self.default_ttl = settings.session_timeout_minutes * 60`. -/
def ConversationState.default_ttl (cfg : ConvSettings) : ℤ :=
  cfg.session_timeout_minutes * 60

/-- `ConversationState._get_key`: `conversation:{user_id}:main`. -/
def ConversationState.get_key (user_id : ℤ) : String :=
  "conversation:" ++ toString user_id ++ ":main"

/-- Model of `datetime.utcnow().isoformat()` at model time `now`. -/
def isoTimestamp (now : ℤ) : JsonVal :=
  .str ("utc:" ++ toString now)

/-- `ConversationState.get_state`: the stored dict, or `{}` when absent,
expired or the store failed (`state or {}`). -/
def ConversationState.get_state (fail : Bool) (now : ℤ) (store : RedisStore)
    (user_id : ℤ) : StateMap × List LogEvent :=
  let r := RedisStateStorage.get fail now store (ConversationState.get_key user_id)
  (r.1.getD [], r.2)

/-- `ConversationState.set_state`: stamp `updated_at`, then write with the
configured default TTL. -/
def ConversationState.set_state (cfg : ConvSettings) (fail : Bool) (now : ℤ)
    (store : RedisStore) (user_id : ℤ) (state : StateMap) :
    RedisStore × List LogEvent :=
  let stamped := dictSet state "updated_at" (isoTimestamp now)
  RedisStateStorage.set fail now store (ConversationState.get_key user_id)
    stamped (some (ConversationState.default_ttl cfg))

/-- `ConversationState.update_state`: read-modify-write with a shallow merge. -/
def ConversationState.update_state (cfg : ConvSettings) (fail : Bool) (now : ℤ)
    (store : RedisStore) (user_id : ℤ) (updates : StateMap) :
    RedisStore × List LogEvent :=
  let cur := ConversationState.get_state fail now store user_id
  let w := ConversationState.set_state cfg fail now store user_id
    (dictUpdate cur.1 updates)
  (w.1, cur.2 ++ w.2)

/-- `ConversationState.clear_state`: delete the key outright. -/
def ConversationState.clear_state (fail : Bool) (store : RedisStore)
    (user_id : ℤ) : RedisStore × List LogEvent :=
  RedisStateStorage.delete fail store (ConversationState.get_key user_id)

/-- `ConversationState.set_flow`: `update_state` with `current_flow` and,
when `data` is truthy (present and non-empty), `flow_data`. -/
def ConversationState.set_flow (cfg : ConvSettings) (fail : Bool) (now : ℤ)
    (store : RedisStore) (user_id : ℤ) (flow : String) (data : Option StateMap) :
    RedisStore × List LogEvent :=
  let updates : StateMap :=
    match data with
    | some d =>
        if d.isEmpty then
          [("current_flow", .str flow)]
        else
          [("current_flow", .str flow), ("flow_data", .obj d)]
    | none => [("current_flow", .str flow)]
  ConversationState.update_state cfg fail now store user_id updates

/-- `ConversationState.get_flow`: `state.get("current_flow")`. -/
def ConversationState.get_flow (fail : Bool) (now : ℤ) (store : RedisStore)
    (user_id : ℤ) : Option JsonVal :=
  dictGet (ConversationState.get_state fail now store user_id).1 "current_flow"

lemma redisLookup_write_self (now : ℤ) (store : RedisStore) (key : String)
    (value : StateMap) (ttl : Option ℤ) :
    redisLookup (redisWrite now store key value ttl) key =
      some ⟨value,
        match ttl with
        | some t => if t ≠ 0 then some (now + t) else none
        | none => none⟩ := by
  simp [redisLookup, redisWrite, List.find?]

/-- **C6.** `set_state` stamps `updated_at` and installs the full configured
TTL from the time of the write, whatever the prior entry was (sliding TTL):
after a write at `now_w` over an arbitrary prior store, `get_state` returns
the stored, stamped map at any read strictly before `now_w + ttl` and the
empty map at any read at or after `now_w + ttl`. -/
theorem C6_sliding_ttl (cfg : ConvSettings) (hpos : 0 < cfg.session_timeout_minutes)
    (store : RedisStore) (u now_w now_r : ℤ) (st : StateMap) :
    (now_r < now_w + ConversationState.default_ttl cfg →
      (ConversationState.get_state false now_r
          (ConversationState.set_state cfg false now_w store u st).1 u).1 =
        dictSet st "updated_at" (isoTimestamp now_w)) ∧
    (now_w + ConversationState.default_ttl cfg ≤ now_r →
      (ConversationState.get_state false now_r
          (ConversationState.set_state cfg false now_w store u st).1 u).1 = []) := by
  have httl : ConversationState.default_ttl cfg ≠ 0 := by
    have : 0 < ConversationState.default_ttl cfg := by
      unfold ConversationState.default_ttl
      positivity
    omega
  have hlook :
      redisLookup (ConversationState.set_state cfg false now_w store u st).1
          (ConversationState.get_key u) =
        some ⟨dictSet st "updated_at" (isoTimestamp now_w),
          some (now_w + ConversationState.default_ttl cfg)⟩ := by
    unfold ConversationState.set_state RedisStateStorage.set
    simp only [if_neg (by simp : ¬ (false = true))]
    rw [redisLookup_write_self]
    simp [httl]
  constructor
  · intro hfresh
    unfold ConversationState.get_state RedisStateStorage.get
    simp only [if_neg (by simp : ¬ (false = true)), hlook]
    simp [RedisEntry.live, hfresh]
  · intro hexp
    unfold ConversationState.get_state RedisStateStorage.get
    simp only [if_neg (by simp : ¬ (false = true)), hlook]
    have hdead : ¬ (now_r < now_w + ConversationState.default_ttl cfg) :=
      not_lt.mpr hexp
    simp [RedisEntry.live, hdead]

/-- Witness for C6 at the default 30-minute timeout: a state written at time
1000 is readable at time 2799 (one second before expiry) with its stamp, and
gone at time 2800. -/
theorem C6_sliding_ttl_witness :
    let cfg : ConvSettings := ⟨30⟩
    let st : StateMap := [("current_flow", .str "upload_file")]
    (0 : ℤ) < (30 : ℤ) ∧
    ((2799 : ℤ) < 1000 + ConversationState.default_ttl cfg ∧
      (ConversationState.get_state false 2799
          (ConversationState.set_state cfg false 1000 [] 5 st).1 5).1 =
        dictSet st "updated_at" (isoTimestamp 1000)) ∧
    (1000 + ConversationState.default_ttl cfg ≤ (2800 : ℤ) ∧
      (ConversationState.get_state false 2800
          (ConversationState.set_state cfg false 1000 [] 5 st).1 5).1 = []) := by
  refine ⟨by decide,
    ⟨by decide, (C6_sliding_ttl ⟨30⟩ (by decide) [] 5 1000 2799
      [("current_flow", .str "upload_file")]).1 (by decide)⟩,
    ⟨by decide, (C6_sliding_ttl ⟨30⟩ (by decide) [] 5 1000 2800
      [("current_flow", .str "upload_file")]).2 (by decide)⟩⟩

/-- **C7.** On a transport failure of the underlying store, a read logs and
returns `None` (the conversation layer degrades to the empty state) and a
write logs and leaves the store untouched; both return normally (the embedding
is a total function into values, not `Except`), so the calling operation is
never aborted. -/
theorem C7_store_failure_swallowed (now : ℤ) (store : RedisStore) (key : String)
    (value : StateMap) (ttl : Option ℤ) (u : ℤ) :
    RedisStateStorage.get true now store key =
      (none, [⟨"error", "Redis get error", key⟩]) ∧
    RedisStateStorage.set true now store key value ttl =
      (store, [⟨"error", "Redis set error", key⟩]) ∧
    (ConversationState.get_state true now store u).1 = [] ∧
    (ConversationState.set_state ⟨30⟩ true now store u value).1 = store :=
  ⟨rfl, rfl, rfl, rfl⟩

/-! ## Observable effects of a handler invocation

A handler run is modelled as the list of chat-transport, backend and log
effects it performs, together with the resulting session store. -/

/-- An observable side effect performed while handling one update. -/
inductive Effect where
  | replyText (text : String)
  | editText (text : String)
  | sendChatAction (action : String)
  | deleteMessage
  | sendMessage (text : String)
  | backendSearch (user_id : ℤ) (query : String)
  | logInfo (event : String)
  | logWarning (event : String) (user_id : ℤ)
  | logError (event : String)
deriving DecidableEq, Repr

/-- Messages visible to the chat user (`reply_text` / `edit_text` /
`send_message`). -/
def Effect.isMessageSend : Effect → Bool
  | .replyText _ => true
  | .editText _ => true
  | .sendMessage _ => true
  | _ => false

/-- Calls into the search backend. -/
def Effect.isBackendCall : Effect → Bool
  | .backendSearch _ _ => true
  | _ => false

/-! ## Authentication guard (`src/auth/__init__.py`, `require_auth`) -/

/-- The rejection message sent by `require_auth`. -/
def unauthorizedMessage (user_id : ℤ) : String :=
  "Unauthorized access. Please contact an administrator to request access. " ++
    "Your Telegram ID: " ++ toString user_id

/-- The effects of the `require_auth` rejection branch: one reply and one
logged warning. -/
def rejectionEffects (user_id : ℤ) : List Effect :=
  [.replyText (unauthorizedMessage user_id),
   .logWarning "Unauthorized access attempt" user_id]

/-- `require_auth`: the wrapper reads the acting user and the auth manager
from context; if the manager is missing or the user is not allowed, it sends
the rejection, logs, and returns without calling the wrapped handler;
otherwise it invokes the handler on the unchanged store. -/
def require_auth (handler : ℤ → RedisStore → List Effect × RedisStore)
    (auth_manager : Option AuthManager) (user_id : ℤ) (store : RedisStore) :
    List Effect × RedisStore :=
  match auth_manager with
  | none => (rejectionEffects user_id, store)
  | some m =>
      if m.is_user_allowed user_id then
        handler user_id store
      else
        (rejectionEffects user_id, store)

/-! ## Message handler (`src/handlers/messages.py`)

The handlers are parametrized by what `backend_client.search` returns for the
query (`result : Option StateMap`, the Python `Optional[Dict]`), and by the
store-failure flag and clock of the session layer. The exact wording of the
templated texts is incidental (spec §1); their structure follows the source. -/

/-- Python truthiness of a JSON value. -/
def JsonVal.truthy : JsonVal → Bool
  | .str s => ¬ s.isEmpty
  | .num n => n ≠ 0
  | .bool b => b
  | .obj fields => ¬ fields.isEmpty
  | .arr items => ¬ items.isEmpty

/-- The greeting words short-circuited by `handle_natural_language_search`. -/
def non_search_phrases : List String :=
  ["hello", "hi", "hey", "thanks", "thank you", "ok", "okay",
   "yes", "no", "sure", "fine", "good", "great", "nice"]

/-- Reminder sent when free text arrives during the `upload_file` flow. -/
def uploadWaitingMessage : String :=
  "I am waiting for a file upload. Please send a file, or use /cancel " ++
    "to exit upload mode."

/-- `format_search_response` (in `src/handlers/commands.py`): renders the
answer, citations or raw documents and a result-count footer; compacted
wording, same branch structure on the `answer`/`citations`/`results` fields. -/
def format_search_response (result : StateMap) (query : String) : String :=
  let answer :=
    match dictGet result "answer" with
    | some (.str s) => s
    | _ => ""
  let citations :=
    match dictGet result "citations" with
    | some (.arr l) => l
    | _ => []
  let results :=
    match dictGet result "results" with
    | some (.arr l) => l
    | _ => []
  if answer.isEmpty ∧ results.isEmpty then
    "No results found for your query."
  else
    let header := "Search Results for: " ++ query ++ "\n\n"
    let answerPart := if answer.isEmpty then "" else answer ++ "\n\n"
    let citePart :=
      if ¬ citations.isEmpty then
        "Sources: " ++ toString citations.length ++ " citations\n\n"
      else if ¬ results.isEmpty then
        "Found Documents: top " ++ toString (min results.length 5) ++ "\n\n"
      else ""
    let total := if ¬ results.isEmpty then results.length else citations.length
    let footer :=
      if total > 0 then "Found " ++ toString total ++ " results" else ""
    header ++ answerPart ++ citePart ++ footer

/-- `split_long_message`: greedy line-based chunking at `max_length`. -/
def split_long_message (text : String) (max_length : ℕ) : List String :=
  if text.length ≤ max_length then
    [text]
  else
    let step := fun (acc : List String × String) (line : String) =>
      if acc.2.length + line.length + 1 ≤ max_length then
        (acc.1, acc.2 ++ line ++ "\n")
      else
        (if ¬ acc.2.isEmpty then acc.1 ++ [acc.2.trim] else acc.1, line ++ "\n")
    let r := (text.splitOn "\n").foldl step ([], "")
    if ¬ r.2.isEmpty then r.1 ++ [r.2.trim] else r.1

/-- The long-response fan-out: first chunk via `reply_text`, later chunks via
`send_message`; short responses are a single reply. -/
def responseReplies (text : String) : List Effect :=
  if text.length > 4000 then
    match split_long_message text 4000 with
    | [] => []
    | c :: rest => .replyText c :: rest.map Effect.sendMessage
  else
    [.replyText text]

/-- `result.get("error", "Unknown error") if result else "Backend unavailable"`,
with the error value rendered as in the f-string (only string errors occur). -/
def searchErrorOf : Option StateMap → String
  | none => "Backend unavailable"
  | some r =>
      match dictGet r "error" with
      | some (.str s) => s
      | some _ => "Unknown error"
      | none => "Unknown error"

/-- `handle_natural_language_search`: too-short queries and greetings are
answered locally with no backend call; otherwise a search indicator and typing
action are sent, the backend search runs, the indicator is deleted, and either
an error reply or the formatted results plus quick-action prompt follow. -/
def handle_natural_language_search (user_id : ℤ) (query : String)
    (result : Option StateMap) : List Effect :=
  if query.trim.length < 3 then
    [.replyText "Query too short. Please provide a more detailed search query."]
  else if non_search_phrases.contains query.toLower.trim then
    [.replyText "Hello! I am here to help you search your enterprise data."]
  else
    [.replyText ("Searching for: " ++ query), .sendChatAction "typing",
     .backendSearch user_id query, .deleteMessage] ++
    (if (match result with
          | none => true
          | some r => r.isEmpty ∨ (dictGet r "error").isSome) then
      [.replyText ("Search Error. I could not process your query. Error: " ++
        searchErrorOf result)]
    else
      match result with
      | some r =>
          responseReplies (format_search_response r query) ++
          [.replyText "What would you like to do next?",
           .logInfo "Natural language search completed"]
      | none => [])

/-- `handle_refined_search`: clears the flow state, runs the search with
`top_k = 15`, and replies with the refined results or an error. -/
def handle_refined_search (fail : Bool) (store : RedisStore) (user_id : ℤ)
    (query : String) (result : Option StateMap) : List Effect × RedisStore :=
  let cleared := ConversationState.clear_state fail store user_id
  let effects :=
    [Effect.replyText ("Refined Search: " ++ query),
     .backendSearch user_id query, .deleteMessage] ++
    (if (match result with
          | none => false
          | some r => ¬ (r.isEmpty ∨ (dictGet r "error").isSome)) then
      match result with
      | some r =>
          responseReplies ("Refined Search Results\n\n" ++
            format_search_response r query)
      | none => []
    else
      [.replyText ("Refined Search Results: " ++ searchErrorOf result)])
  (cleared.2.map (fun _ => Effect.logError "Redis delete error") ++ effects,
    cleared.1)

/-- `text.startswith('/')`: whether the message is a command (the prefix is a
single character, so this is the first-character test). -/
def startsWithSlash (text : String) : Bool :=
  text.data.head? = some '/'

/-- `handle_text_message` (guard body): commands are skipped; the
`refine_search` flow dispatches to the refined-search handler; the
`upload_file` flow answers with the upload reminder and runs no search; any
other truthy flow value is cleared and the text is treated as a new search;
no flow (or a falsy one) goes straight to a new search. -/
def handle_text_message (fail : Bool) (now : ℤ) (store : RedisStore)
    (user_id : ℤ) (text : String) (result : Option StateMap) :
    List Effect × RedisStore :=
  if startsWithSlash text then
    ([], store)
  else
    match ConversationState.get_flow fail now store user_id with
    | some (.str s) =>
        if s = "refine_search" then
          handle_refined_search fail store user_id text result
        else if s = "upload_file" then
          ([.replyText uploadWaitingMessage], store)
        else if (JsonVal.str s).truthy then
          let cleared := ConversationState.clear_state fail store user_id
          (handle_natural_language_search user_id text result, cleared.1)
        else
          (handle_natural_language_search user_id text result, store)
    | some v =>
        if v.truthy then
          let cleared := ConversationState.clear_state fail store user_id
          (handle_natural_language_search user_id text result, cleared.1)
        else
          (handle_natural_language_search user_id text result, store)
    | none =>
        (handle_natural_language_search user_id text result, store)

/-! ## Job-completion callback (`src/server.py`, `process_job_callback`) -/

/-- The `JobCallback` payload of `/api/job-callback`. -/
structure JobCallback where
  job_id : String
  status : String
  result : StateMap
  error : Option String

/-- `process_job_callback`: formats a status message from the callback, logs
`"Job callback processed"`, and returns; the message is never delivered to
any chat and no job-to-user lookup takes place (the in-source comments call
this a placeholder for a real `job_id -> user_id` correlation). -/
def process_job_callback (cb : JobCallback) : List Effect :=
  let _message :=
    if cb.status = "completed" then
      "Job Completed. Job ID: " ++ cb.job_id ++
        (if ¬ cb.result.isEmpty then " Result: Processing successful!" else "")
    else if cb.status = "failed" then
      "Job Failed. Job ID: " ++ cb.job_id ++
        (match cb.error with
         | some e => if e.isEmpty then "" else " Error: " ++ e
         | none => "")
    else
      "Job Status Update. Job ID: " ++ cb.job_id ++ " Status: " ++ cb.status
  [.logInfo "Job callback processed"]

/-! ## Theorems on guards, dispatch and the callback -/

/-- **C1.** For a user outside the allow-list with allow-all disabled, the
guarded entry point produces exactly the rejection effects on an unchanged
store: exactly one visible message, no backend call, no state mutation, and
the result is the same whatever the wrapped handler is (it is never invoked). -/
theorem C1_guard_rejects_without_side_effects (m : AuthManager) (u : ℤ)
    (hall : m.allow_all_users = false) (hu : u ∉ m.allowed_users)
    (handler : ℤ → RedisStore → List Effect × RedisStore) (store : RedisStore) :
    require_auth handler (some m) u store = (rejectionEffects u, store) ∧
    (require_auth handler (some m) u store).1.countP Effect.isMessageSend = 1 ∧
    (require_auth handler (some m) u store).1.countP Effect.isBackendCall = 0 ∧
    (require_auth handler (some m) u store).2 = store ∧
    (∀ handler2 : ℤ → RedisStore → List Effect × RedisStore,
      require_auth handler2 (some m) u store =
        require_auth handler (some m) u store) := by
  have hnot : m.is_user_allowed u = false := by
    simp [AuthManager.is_user_allowed, hall, hu]
  have hmain : ∀ h : ℤ → RedisStore → List Effect × RedisStore,
      require_auth h (some m) u store = (rejectionEffects u, store) := by
    intro h
    unfold require_auth
    simp [hnot]
  refine ⟨hmain handler, ?_, ?_, ?_, fun h2 => (hmain h2).trans (hmain handler).symm⟩
  · rw [hmain handler]
    rfl
  · rw [hmain handler]
    rfl
  · rw [hmain handler]

/-- Witness for C1: the manager allows only user 1 (allow-all off); user 2 is
rejected even when the wrapped handler would have called the backend. -/
theorem C1_guard_rejects_without_side_effects_witness :
    let m : AuthManager := ⟨"s", {1}, ∅, false⟩
    m.allow_all_users = false ∧ (2 : ℤ) ∉ m.allowed_users ∧
    require_auth (fun uid st => ([.backendSearch uid "leak"], st)) (some m) 2 [] =
      (rejectionEffects 2, []) := by
  refine ⟨rfl, by decide,
    (C1_guard_rejects_without_side_effects ⟨"s", {1}, ∅, false⟩ 2 rfl (by decide)
      (fun uid st => ([.backendSearch uid "leak"], st)) []).1⟩

lemma find?_filter_ne (store : RedisStore) (key : String) :
    (store.filter (fun kv => kv.1 ≠ key)).find? (fun kv => kv.1 = key) = none := by
  induction store with
  | nil => rfl
  | cons kv rest ih =>
      by_cases h : kv.1 = key
      · simp [List.filter, h, ih]
      · simp [List.filter, h, ih]

lemma get_flow_after_clear (now : ℤ) (store : RedisStore) (u : ℤ) :
    ConversationState.get_flow false now
      (ConversationState.clear_state false store u).1 u = none := by
  have h2 : (ConversationState.clear_state false store u).1 =
      store.filter (fun kv => kv.1 ≠ ConversationState.get_key u) := rfl
  have h1 : redisLookup (ConversationState.clear_state false store u).1
      (ConversationState.get_key u) = none := by
    rw [h2]
    unfold redisLookup
    rw [find?_filter_ne]
    rfl
  unfold ConversationState.get_flow ConversationState.get_state
    RedisStateStorage.get
  simp [h1, dictGet]

/-- **C8.** Free text (not a command) while the current flow is `upload_file`
yields exactly the upload reminder with no backend search and no state change;
while the current flow is any other unrecognized (non-empty) flow name, the
state is cleared — after which no flow is set — and the text is handled
exactly as a new natural-language search. -/
theorem C8_flow_dispatch (now : ℤ) (store : RedisStore) (u : ℤ) (text : String)
    (result : Option StateMap) (hcmd : startsWithSlash text = false) :
    (ConversationState.get_flow false now store u = some (.str "upload_file") →
      handle_text_message false now store u text result =
        ([.replyText uploadWaitingMessage], store) ∧
      (handle_text_message false now store u text result).1.countP
        Effect.isBackendCall = 0) ∧
    (∀ s : String,
      ConversationState.get_flow false now store u = some (.str s) →
      s ≠ "refine_search" → s ≠ "upload_file" → s ≠ "" →
      handle_text_message false now store u text result =
        (handle_natural_language_search u text result,
          (ConversationState.clear_state false store u).1) ∧
      ConversationState.get_flow false now
        (ConversationState.clear_state false store u).1 u = none) := by
  constructor
  · intro hflow
    have hmain : handle_text_message false now store u text result =
        ([.replyText uploadWaitingMessage], store) := by
      unfold handle_text_message
      rw [hflow]
      simp [hcmd]
    refine ⟨hmain, ?_⟩
    rw [hmain]
    rfl
  · intro s hflow hs1 hs2 hs3
    have htruthy : (JsonVal.str s).truthy = true := by
      simp [JsonVal.truthy, String.isEmpty_iff, hs3]
    constructor
    · unfold handle_text_message
      rw [hflow]
      simp [hcmd, hs1, hs2, htruthy]
    · exact get_flow_after_clear now store u

/-- Witness for C8 at concrete stores: user 5 mid-`upload_file` gets the
reminder; user 5 mid-`connecting` (an unrecognized flow) gets the state
cleared and the new-search handling. -/
theorem C8_flow_dispatch_witness :
    let entryUp : RedisEntry := ⟨[("current_flow", .str "upload_file")], some 100⟩
    let storeUp : RedisStore := [(ConversationState.get_key 5, entryUp)]
    let entryConn : RedisEntry := ⟨[("current_flow", .str "connecting")], some 100⟩
    let storeConn : RedisStore := [(ConversationState.get_key 5, entryConn)]
    (startsWithSlash "find the q3 report" = false ∧
      ConversationState.get_flow false 0 storeUp 5 = some (.str "upload_file") ∧
      handle_text_message false 0 storeUp 5 "find the q3 report" none =
        ([.replyText uploadWaitingMessage], storeUp)) ∧
    (ConversationState.get_flow false 0 storeConn 5 = some (.str "connecting") ∧
      handle_text_message false 0 storeConn 5 "find the q3 report" none =
        (handle_natural_language_search 5 "find the q3 report" none,
          (ConversationState.clear_state false storeConn 5).1)) := by
  refine ⟨⟨by decide, rfl, ?_⟩, rfl, ?_⟩
  · exact ((C8_flow_dispatch 0
      [(ConversationState.get_key 5, ⟨[("current_flow", .str "upload_file")], some 100⟩)]
      5 "find the q3 report" none (by decide)).1 rfl).1
  · exact ((C8_flow_dispatch 0
      [(ConversationState.get_key 5, ⟨[("current_flow", .str "connecting")], some 100⟩)]
      5 "find the q3 report" none (by decide)).2 "connecting" rfl (by decide) (by decide)
      (by decide)).1

/-- **C2 divergence.** At the failing input — a completion callback for job
`"j1"` (previously recorded for the uploading user in their conversation
state) — `process_job_callback` performs no job-to-user lookup and sends no
message to anyone: its only effect is a log line, and a duplicate delivery
behaves identically. The claim's required behavior (notify exactly the owning
user) is not implemented. -/
theorem C2_callback_notifies_no_one :
    process_job_callback ⟨"j1", "completed", [("ok", .bool true)], none⟩ =
      [.logInfo "Job callback processed"] ∧
    (process_job_callback ⟨"j1", "completed", [("ok", .bool true)], none⟩).countP
      Effect.isMessageSend = 0 ∧
    process_job_callback ⟨"j1", "completed", [("ok", .bool true)], none⟩ =
      process_job_callback ⟨"j1", "completed", [("ok", .bool true)], none⟩ := by
  exact ⟨rfl, by decide, rfl⟩

end Kroolo
